import Mathlib

/-!
Shallow embedding of `rby1ftrack` (`robot_controller.py`, `look_camera.py`):
UDP wire decoding of pan/tilt angle datagrams and attention booleans,
rotation composition for the virtual head, actuator command dispatch, the
attention latch, and the control flow of the two receive loops.
Bytes are modelled as `List Nat`, float values as exact rationals via the
IEEE-754 binary32 value function, and the 3-D geometry over `ℝ`.
-/

namespace RBY1FTrack

/-- Decode failure raised by `struct.unpack` when the buffer size does not
match the format size (`struct.error` in the source). -/
structure DecodeError where
  msg : String
deriving DecidableEq

/-- Little-endian word assembled from a byte list: `struct.unpack` consumes
datagrams in native byte order (little-endian on x86-64). -/
def leWord (bs : List Nat) : Nat :=
  bs.foldr (fun b acc => b + 256 * acc) 0

/-- Value of an IEEE-754 binary32 bit pattern as an exact rational (finite
range; the value semantics of each `f` field of `struct.unpack('ff', data)`
at `robot_controller.py` lines 24 and 106). -/
def b32Val (b : Nat) : ℚ :=
  let sign : ℚ := if b / 2 ^ 31 % 2 = 0 then 1 else -1
  let e : Nat := b / 2 ^ 23 % 2 ^ 8
  let frac : Nat := b % 2 ^ 23
  if e = 0 then
    sign * frac * 2 / (2 ^ 23 * 2 ^ 127)
  else
    sign * ((2 ^ 23 + frac) * 2 ^ e) / (2 ^ 23 * 2 ^ 127)

/-- Models `struct.unpack('ff', data)`: native size of `'ff'` is 8, so it
succeeds exactly on 8-byte buffers, yielding the two 32-bit words in field
order (pan word first, tilt word second). -/
def unpackFF (data : List Nat) : Except DecodeError (Nat × Nat) :=
  if data.length = 8 then
    .ok (leWord (data.take 4), leWord ((data.drop 4).take 4))
  else
    .error ⟨"unpack requires a buffer of 8 bytes"⟩

/-- Orientation-stream decode: the two float32 values (pan, tilt) in degrees. -/
def decodeAngles (data : List Nat) : Except DecodeError (ℚ × ℚ) :=
  (unpackFF data).map fun w => (b32Val w.1, b32Val w.2)

/-- Signed value of a 64-bit little-endian word, two's complement. -/
def int64Val (n : Nat) : ℤ :=
  if n < 2 ^ 63 then (n : ℤ) else (n : ℤ) - 2 ^ 64

/-- Models `struct.unpack('?q', data)` in native mode on x86-64
(`look_camera.py` line 21): `calcsize` of `'?q'` is 16 — a 1-byte bool, 7
alignment padding bytes, then an 8-byte signed integer — so decoding
succeeds exactly on 16-byte buffers; the bool is true iff byte 0 is
nonzero, and bytes 1..7 are ignored padding. -/
def unpackBoolQ (data : List Nat) : Except DecodeError (Bool × ℤ) :=
  if data.length = 16 then
    .ok (data.getD 0 0 != 0, int64Val (leWord (data.drop 8)))
  else
    .error ⟨"unpack requires a buffer of 16 bytes"⟩

/-- One step of the attention latch (`look_camera.py` lines 24-28): when the
incoming boolean differs from `last_status` (initially `None`, modelled as
`none`), a transition event carrying the new state is emitted and the new
boolean is latched; otherwise nothing is emitted and the state is kept. -/
def latchStep (last : Option Bool) (looking : Bool) : Option Bool × List Bool :=
  if last ≠ some looking then (some looking, [looking]) else (last, [])

/-- Latch state and emitted transition events after a finite sample list. -/
def latchRun (samples : List Bool) (st : Option Bool) : Option Bool × List Bool :=
  samples.foldl (fun p b => ((latchStep p.1 b).1, p.2 ++ (latchStep p.1 b).2)) (st, [])

/-- One joint command issued through `robot.set_joint_position`. -/
structure JointCommand where
  joint : String
  angleDeg : ℚ
deriving DecidableEq

/-- Commands attempted by one iteration of `control_robot` on datagram `d`
(`robot_controller.py` lines 22-29): a decode failure issues no command;
otherwise `head_0` is set to pan, then `head_1` to tilt. `fails` is an
oracle for which commands the robot rejects: if the pan command raises, the
broad `except` catches it before the tilt command is attempted. -/
def robotStep (fails : JointCommand → Bool) (d : List Nat) : List JointCommand :=
  match decodeAngles d with
  | .error _ => []
  | .ok (pan, tilt) =>
    let c1 : JointCommand := ⟨"head_0", pan⟩
    let c2 : JointCommand := ⟨"head_1", tilt⟩
    if fails c1 then [c1] else [c1, c2]

/-- Commands attempted over a finite prefix of `control_robot`'s receive
loop: every exception of an iteration is caught (`except Exception`), so
each datagram is processed regardless of earlier decode or command
failures. -/
def robotLoop (fails : JointCommand → Bool) : List (List Nat) → List JointCommand
  | [] => []
  | d :: rest => robotStep fails d ++ robotLoop fails rest

/-- Run of `receive_looking_status`'s inner loop on a finite datagram list
(`look_camera.py` lines 16-28), returning the final latch state and the
emitted transitions. `struct.error` from a malformed datagram is not caught
anywhere inside the loop (only `KeyboardInterrupt` is, outside the `while`),
so a decode failure aborts the whole loop with that error. -/
def lookLoop : List (List Nat) → Option Bool → Except DecodeError (Option Bool × List Bool)
  | [], st => .ok (st, [])
  | d :: rest, st =>
    match unpackBoolQ d with
    | .error e => .error e
    | .ok (b, _) =>
      let s := latchStep st b
      (lookLoop rest s.1).map fun r => (r.1, s.2 ++ r.2)

/-- External happening observed by a receive loop: either a datagram arrives
or the operator interrupts the process (SIGINT / `KeyboardInterrupt`). -/
inductive LoopEvent where
  | datagram (d : List Nat)
  | interrupt
deriving DecidableEq

/-- How a receive loop ended: whether its socket was closed on the exit
path, and whether the termination was clean (the exception was handled)
rather than a propagating exception. -/
structure RunResult where
  socketClosed : Bool
  cleanExit : Bool
deriving DecidableEq

/-- Exit behaviour of `control_robot`'s loop (`robot_controller.py` lines
11-29): datagrams never end the loop (the broad `except` swallows every
`Exception`), and `KeyboardInterrupt` — not an `Exception` subclass —
propagates out of a function that contains no `sock.close()` and no
`finally`, so the socket is not released and the exit is not clean.
`none` means the loop is still running after the given events. -/
def controlRobotRun : List LoopEvent → Option RunResult
  | [] => none
  | .datagram _ :: rest => controlRobotRun rest
  | .interrupt :: _ => some ⟨false, false⟩

/-- Exit behaviour of `receive_looking_status` (`look_camera.py` lines
15-40): a malformed datagram's `struct.error` escapes the loop — the
`finally` closes the socket but the exception propagates (not clean) —
while `KeyboardInterrupt` is caught and the `finally` closes the socket
(clean exit). `none` means the loop is still running. -/
def lookCameraRun : Option Bool → List LoopEvent → Option RunResult
  | _, [] => none
  | st, .datagram d :: rest =>
    match unpackBoolQ d with
    | .error _ => some ⟨true, false⟩
    | .ok (b, _) => lookCameraRun (latchStep st b).1 rest
  | _, .interrupt :: _ => some ⟨true, true⟩

/-- Degrees to radians, `np.radians` (`robot_controller.py` lines 108-109). -/
noncomputable def degToRad (d : ℝ) : ℝ :=
  d * Real.pi / 180

/-- Tilt rotation about the x axis (`robot_controller.py` lines 113-117). -/
noncomputable def Rx (t : ℝ) : Matrix (Fin 3) (Fin 3) ℝ :=
  !![1, 0, 0;
     0, Real.cos t, -Real.sin t;
     0, Real.sin t, Real.cos t]

/-- Pan rotation about the y axis (`robot_controller.py` lines 118-122). -/
noncomputable def Ry (p : ℝ) : Matrix (Fin 3) (Fin 3) ℝ :=
  !![Real.cos p, 0, Real.sin p;
     0, 1, 0;
     -Real.sin p, 0, Real.cos p]

/-- Combined rotation `R = Ry @ Rx` (`robot_controller.py` line 123). -/
noncomputable def Rmat (pan tilt : ℝ) : Matrix (Fin 3) (Fin 3) ℝ :=
  Ry pan * Rx tilt

/-- Models pyqtgraph `GLGraphicsItem.rotate(angle, x, y, z)` with its
default `local=False`: the new rotation is premultiplied onto the current
transform (global-frame composition, `newTransform = tr * transform`). -/
noncomputable def rotateGlobal (tr cur : Matrix (Fin 3) (Fin 3) ℝ) : Matrix (Fin 3) (Fin 3) ℝ :=
  tr * cur

/-- Eye placement constants (`robot_controller.py` lines 66-69). -/
noncomputable def thetaEye : ℝ := degToRad 30

/-- Azimuth of the left eye. -/
noncomputable def phiLeft : ℝ := degToRad 150

/-- Azimuth of the right eye. -/
noncomputable def phiRight : ℝ := degToRad 30

/-- Radius constant `r_val` (`robot_controller.py` line 69). -/
noncomputable def rVal : ℝ := 1

/-- Rest offset of the left eye in head-local coordinates
(`robot_controller.py` lines 70-74). -/
noncomputable def leftEyeOffset : Fin 3 → ℝ :=
  ![rVal * Real.sin thetaEye * Real.cos phiLeft,
    rVal * Real.sin thetaEye * Real.sin phiLeft,
    rVal * Real.cos thetaEye]

/-- Rest offset of the right eye in head-local coordinates
(`robot_controller.py` lines 75-79). -/
noncomputable def rightEyeOffset : Fin 3 → ℝ :=
  ![rVal * Real.sin thetaEye * Real.cos phiRight,
    rVal * Real.sin thetaEye * Real.sin phiRight,
    rVal * Real.cos thetaEye]

/-- Fixed world anchor of the head, `head_pos = [0, 0, 0]`
(`robot_controller.py` line 135); it never translates. -/
noncomputable def headOrigin : Fin 3 → ℝ :=
  ![0, 0, 0]

/-- Displayed transforms of the virtual head scene: the head's rotation and
the world positions of the two eyes. -/
structure VisState where
  headT : Matrix (Fin 3) (Fin 3) ℝ
  leftEyePos : Fin 3 → ℝ
  rightEyePos : Fin 3 → ℝ

/-- Successful-decode body of `visualize_head.update` for a sample with the
given pan and tilt in degrees (`robot_controller.py` lines 106-140): every
transform is reset, the head is rotated by tilt about x then by pan about y
in the global frame, and each eye is placed at `R @ rest_offset + head_pos`
from its fixed rest offset. The `resetTransform` calls discard the previous
state, which is therefore ignored. -/
noncomputable def applySample (panDeg tiltDeg : ℝ) (_prev : VisState) : VisState :=
  let pan := degToRad panDeg
  let tilt := degToRad tiltDeg
  let r := Rmat pan tilt
  { headT := rotateGlobal (Ry pan) (rotateGlobal (Rx tilt) 1)
    leftEyePos := r.mulVec leftEyeOffset + headOrigin
    rightEyePos := r.mulVec rightEyeOffset + headOrigin }

/-- One timer tick of `visualize_head.update` (`robot_controller.py` lines
103-145): `none` models the `BlockingIOError` branch (no datagram
available, `pass`), a decode failure is caught by the broad `except` before
any transform is touched, and a successful decode rebuilds all transforms
from the sample. -/
noncomputable def visUpdate (datagram : Option (List Nat)) (st : VisState) : VisState :=
  match datagram with
  | none => st
  | some d =>
    match decodeAngles d with
    | .error _ => st
    | .ok (pan, tilt) => applySample (pan : ℝ) (tilt : ℝ) st

/-- The 8-byte native encoding of `struct.pack('ff', 12.5, -7.25)`. -/
def bytesPanTilt : List Nat := [0, 0, 72, 65, 0, 0, 232, 192]

/-- The 8-byte native encoding of `struct.pack('ff', 45.0, -20.0)`. -/
def bytesFortyFive : List Nat := [0, 0, 52, 66, 0, 0, 160, 193]

theorem degToRad_zero : degToRad 0 = 0 := by
  simp [degToRad]

theorem degToRad_ninety : degToRad 90 = Real.pi / 2 := by
  unfold degToRad
  ring

theorem Rx_zero : Rx 0 = 1 := by
  rw [show (1 : Matrix (Fin 3) (Fin 3) ℝ) = !![1,0,0;0,1,0;0,0,1] from Matrix.one_fin_three]
  simp [Rx]

theorem Ry_zero : Ry 0 = 1 := by
  rw [show (1 : Matrix (Fin 3) (Fin 3) ℝ) = !![1,0,0;0,1,0;0,0,1] from Matrix.one_fin_three]
  simp [Ry]

theorem Rmat_zero_zero : Rmat (degToRad 0) (degToRad 0) = 1 := by
  rw [Rmat, degToRad_zero, Rx_zero, Ry_zero, one_mul]

theorem headOrigin_eq_zero : headOrigin = 0 := by
  funext i
  fin_cases i <;> simp [headOrigin]

theorem decodeAngles_bytesPanTilt : decodeAngles bytesPanTilt = .ok (25/2, -29/4) := by
  norm_num [decodeAngles, unpackFF, bytesPanTilt, leWord, b32Val, Except.map]

theorem decodeAngles_bytesFortyFive : decodeAngles bytesFortyFive = .ok (45, -20) := by
  norm_num [decodeAngles, unpackFF, bytesFortyFive, leWord, b32Val, Except.map]

/-- C1 counterexample: at pan = 90°, tilt = 0° the two composition orders
coincide (Rx at 0° is the identity matrix), so this particular input cannot
distinguish the Ry·Rx order from Rx·Ry. -/
theorem C1_counterexample :
    Ry (degToRad 90) * Rx (degToRad 0) = Rx (degToRad 0) * Ry (degToRad 90) := by
  rw [degToRad_zero, Rx_zero, mul_one, one_mul]

/-- C1 (amended): the Rotation Composer builds R = Ry(pan) · Rx(tilt) with
tilt the inner (first-applied) rotation, the head's displayed transform —
reset, rotate by tilt about x, then by pan about y in the global frame —
equals this R, and for pan = 90°, tilt = 0° the head's local +Z axis maps
to world +X. (That input alone does not distinguish Ry·Rx from Rx·Ry, since
the two orders coincide when tilt = 0.) -/
theorem C1_rotation_order :
    (∀ pan tilt : ℝ, Rmat pan tilt = Ry pan * Rx tilt) ∧
    (∀ panDeg tiltDeg prev, (applySample panDeg tiltDeg prev).headT =
        Rmat (degToRad panDeg) (degToRad tiltDeg)) ∧
    (Rmat (degToRad 90) (degToRad 0)).mulVec ![0, 0, 1] = ![1, 0, 0] := by
  refine ⟨fun _ _ => rfl, ?_, ?_⟩
  · intro p t prev
    simp [applySample, rotateGlobal, Rmat]
  · rw [Rmat, degToRad_zero, Rx_zero, mul_one, degToRad_ninety]
    funext i
    fin_cases i <;>
      simp [Ry, Matrix.mulVec, Matrix.dotProduct, Fin.sum_univ_three]

/-- C2: the 8-byte encoding of (12.5, -7.25) decodes to pan = 12.5 and
tilt = -7.25 in field order; decoding succeeds exactly on length-8 buffers;
7- and 9-byte buffers fail with a DecodeError and a failing tick leaves the
prior visual state untouched. -/
theorem C2_wire_decoder :
    decodeAngles bytesPanTilt = .ok (25/2, -29/4) ∧
    (∀ data : List Nat, (∃ v, decodeAngles data = .ok v) ↔ data.length = 8) ∧
    decodeAngles (List.replicate 7 0) = .error ⟨"unpack requires a buffer of 8 bytes"⟩ ∧
    decodeAngles (List.replicate 9 0) = .error ⟨"unpack requires a buffer of 8 bytes"⟩ ∧
    (∀ st, visUpdate (some (List.replicate 7 0)) st = st) ∧
    (∀ st, visUpdate (some (List.replicate 9 0)) st = st) := by
  refine ⟨decodeAngles_bytesPanTilt, ?_, rfl, rfl, fun st => rfl, fun st => rfl⟩
  intro data
  unfold decodeAngles unpackFF
  by_cases h : data.length = 8 <;> simp [h, Except.map]

/-- C3 counterexample: in `receive_looking_status` a malformed 9-byte
datagram terminates the receive loop with the decode error — the
well-formed 16-byte datagram queued behind it is never processed and no
transition is emitted for it. -/
theorem C3_counterexample :
    lookLoop [List.replicate 9 0, 1 :: List.replicate 15 0] none =
      .error ⟨"unpack requires a buffer of 16 bytes"⟩ := rfl

/-- C3 (amended): the orientation loop (`control_robot`) recovers locally —
a malformed datagram contributes nothing and every later datagram is still
processed — but the attention loop (`receive_looking_status`) does not:
a decode failure terminates that loop with the error. -/
theorem C3_loop_recovery :
    (∀ (fails : JointCommand → Bool) (d : List Nat) rest,
        d.length ≠ 8 → robotLoop fails (d :: rest) = robotLoop fails rest) ∧
    (∀ (d : List Nat) rest st,
        d.length ≠ 16 → ∃ e, lookLoop (d :: rest) st = .error e) := by
  constructor
  · intro fails d rest h
    simp [robotLoop, robotStep, decodeAngles, unpackFF, h, Except.map]
  · intro d rest st h
    exact ⟨⟨"unpack requires a buffer of 16 bytes"⟩, by simp [lookLoop, unpackBoolQ, h]⟩

/-- C3 witness: a 9-byte datagram is dropped by the orientation loop but
kills the attention loop. -/
theorem C3_loop_recovery_witness :
    robotLoop (fun _ => false) [List.replicate 9 0, bytesFortyFive] =
        robotLoop (fun _ => false) [bytesFortyFive] ∧
    (∃ e, lookLoop [List.replicate 9 0] none = .error e) :=
  ⟨C3_loop_recovery.1 (fun _ => false) (List.replicate 9 0) [bytesFortyFive] (by decide),
   C3_loop_recovery.2 (List.replicate 9 0) [] none (by decide)⟩

/-- C4: each eye is placed at head_origin + R · rest_offset with the head
anchored at the fixed origin; with pan = tilt = 0 the rotation is the
identity and each eye sits exactly at its rest offset; and the new frame is
computed from the fixed rest data only — it never depends on the previous
frame's transforms. -/
theorem C4_eye_positions :
    (∀ panDeg tiltDeg prev,
        (applySample panDeg tiltDeg prev).leftEyePos =
          (Rmat (degToRad panDeg) (degToRad tiltDeg)).mulVec leftEyeOffset + headOrigin ∧
        (applySample panDeg tiltDeg prev).rightEyePos =
          (Rmat (degToRad panDeg) (degToRad tiltDeg)).mulVec rightEyeOffset + headOrigin) ∧
    headOrigin = 0 ∧
    (∀ prev, (applySample 0 0 prev).leftEyePos = leftEyeOffset ∧
        (applySample 0 0 prev).rightEyePos = rightEyeOffset) ∧
    (∀ panDeg tiltDeg p q, applySample panDeg tiltDeg p = applySample panDeg tiltDeg q) := by
  refine ⟨fun _ _ _ => ⟨rfl, rfl⟩, headOrigin_eq_zero, ?_, fun _ _ _ _ => rfl⟩
  intro prev
  constructor <;>
    simp [applySample, Rmat_zero_zero, Matrix.one_mulVec, headOrigin_eq_zero]

/-- C5: the Attention Latch emits a transition exactly when the incoming
boolean differs from the latched value (or nothing was observed yet), it
latches the new value exactly when it emits, and on the sample sequence
[true, true, false, false, true] it emits exactly the three transitions
[true, false, true] in order. -/
theorem C5_attention_latch :
    (∀ last b, (latchStep last b).2 = [b] ↔ last ≠ some b) ∧
    (∀ last b, (latchStep last b).2 = [] ↔ last = some b) ∧
    (∀ last b, (latchStep last b).1 =
        if (latchStep last b).2 = [] then last else some b) ∧
    latchRun [true, true, false, false, true] none = (some true, [true, false, true]) := by
  refine ⟨?_, ?_, ?_, by decide⟩ <;>
  · intro last b
    rcases last with _ | c
    · simp [latchStep]
    · by_cases h : c = b <;> simp [latchStep, h]

/-- C6: a successfully decoded sample issues exactly the two joint commands
`head_0 := pan` then `head_1 := tilt`; the (45.0, -20.0) datagram yields
one command at 45 and one at -20; and each iteration's failures are caught,
so the loop always goes on to process the next datagram. -/
theorem C6_actuator_adapter :
    (∀ (d : List Nat) pan tilt, decodeAngles d = .ok (pan, tilt) →
        robotStep (fun _ => false) d = [⟨"head_0", pan⟩, ⟨"head_1", tilt⟩]) ∧
    robotStep (fun _ => false) bytesFortyFive = [⟨"head_0", 45⟩, ⟨"head_1", -20⟩] ∧
    (∀ fails d rest, robotLoop fails (d :: rest) = robotStep fails d ++ robotLoop fails rest) := by
  refine ⟨?_, ?_, fun _ _ _ => rfl⟩
  · intro d pan tilt h
    simp [robotStep, h]
  · simp [robotStep, decodeAngles_bytesFortyFive]

/-- C6 witness: the decoded (45.0, -20.0) datagram issues exactly the two
commands. -/
theorem C6_actuator_adapter_witness :
    robotStep (fun _ => false) bytesFortyFive =
      [⟨"head_0", (45 : ℚ)⟩, ⟨"head_1", -20⟩] :=
  C6_actuator_adapter.1 bytesFortyFive 45 (-20) decodeAngles_bytesFortyFive

/-- C7: a render tick in which no datagram is available (the
`BlockingIOError` branch) is a no-op — every head and eye transform is left
exactly as it was after the previous tick. -/
theorem C7_no_datagram_noop : ∀ st : VisState, visUpdate none st = st :=
  fun _ => rfl

/-- C8: processing the same sample twice is idempotent — the second
application reproduces exactly the same head rotation and eye transforms,
because each frame recomputes from the fixed rest data. -/
theorem C8_idempotent :
    (∀ panDeg tiltDeg st,
        applySample panDeg tiltDeg (applySample panDeg tiltDeg st) =
          applySample panDeg tiltDeg st) ∧
    (∀ d st, visUpdate (some d) (visUpdate (some d) st) = visUpdate (some d) st) := by
  constructor
  · intro p t st
    rfl
  · intro d st
    cases h : decodeAngles d with
    | error e => simp [visUpdate, h]
    | ok v => simp [visUpdate, h, applySample]

/-- C9 counterexample: an interrupt arriving in `control_robot`'s receive
loop exits via an uncaught `KeyboardInterrupt` with no `sock.close()`
anywhere on the path — the socket is not released and the exit is not
clean. -/
theorem C9_counterexample :
    controlRobotRun [LoopEvent.interrupt] = some ⟨false, false⟩ := rfl

/-- C9 (amended): `receive_looking_status` closes its socket on every exit
path (its `finally`) and stops cleanly on interrupt, while `control_robot`
never closes its socket: every exit of its loop leaves the socket open and
propagates the interrupt uncleanly. -/
theorem C9_socket_release :
    (∀ st events r, lookCameraRun st events = some r → r.socketClosed = true) ∧
    lookCameraRun none [LoopEvent.interrupt] = some ⟨true, true⟩ ∧
    (∀ events r, controlRobotRun events = some r → r = ⟨false, false⟩) := by
  refine ⟨?_, rfl, ?_⟩
  · intro st events
    induction events generalizing st with
    | nil =>
      intro r h
      exact absurd h (by simp [lookCameraRun])
    | cons e rest ih =>
      intro r h
      cases e with
      | interrupt =>
        rw [show lookCameraRun st (LoopEvent.interrupt :: rest) = some ⟨true, true⟩ from rfl] at h
        injection h with h2
        rw [← h2]
      | datagram d =>
        cases hu : unpackBoolQ d with
        | error e2 =>
          rw [show lookCameraRun st (LoopEvent.datagram d :: rest) = some ⟨true, false⟩ from
            by simp [lookCameraRun, hu]] at h
          injection h with h2
          rw [← h2]
        | ok v =>
          rw [show lookCameraRun st (LoopEvent.datagram d :: rest) =
              lookCameraRun (latchStep st v.1).1 rest from by simp [lookCameraRun, hu]] at h
          exact ih _ _ h
  · intro events
    induction events with
    | nil =>
      intro r h
      exact absurd h (by simp [controlRobotRun])
    | cons e rest ih =>
      intro r h
      cases e with
      | datagram d => exact ih r h
      | interrupt =>
        injection h with h2
        exact h2.symm

/-- C9 witness: a malformed datagram's exit of the attention loop still
closes the socket, and an interrupt exit of the control loop does not. -/
theorem C9_socket_release_witness :
    (RunResult.mk true false).socketClosed = true ∧
    (RunResult.mk false false) = ⟨false, false⟩ :=
  ⟨C9_socket_release.1 none [LoopEvent.datagram (List.replicate 9 0)] ⟨true, false⟩ rfl,
   C9_socket_release.2.2 [LoopEvent.interrupt] ⟨false, false⟩ rfl⟩

/-- C10: the attention decode `struct.unpack('?q', ...)` under native
alignment needs exactly 16 bytes (1-byte bool, 7 padding bytes, 8-byte
signed integer), so every other length — including the 9-byte contiguous
packing of the two fields — fails; a well-formed 16-byte datagram reads the
bool from byte 0 and the integer from bytes 8..15. -/
theorem C10_attention_size :
    (∀ data : List Nat, (∃ v, unpackBoolQ data = .ok v) ↔ data.length = 16) ∧
    unpackBoolQ (List.replicate 9 0) = .error ⟨"unpack requires a buffer of 16 bytes"⟩ ∧
    unpackBoolQ (1 :: (List.replicate 7 0 ++ [5, 0, 0, 0, 0, 0, 0, 0])) = .ok (true, 5) := by
  refine ⟨?_, rfl, rfl⟩
  intro data
  unfold unpackBoolQ
  by_cases h : data.length = 16 <;> simp [h]

end RBY1FTrack
